import Mathlib

/-
Verification of twisted/internet/_win32handleinherit.py.

The module disables inheritance of open file and socket handles by child
processes on Windows.  It enumerates the system-wide handle table with
NtQuerySystemInformation, filters the records to the current process and to
the kernel object type named "File", and clears the HANDLE_FLAG_INHERIT bit
on each remaining handle with SetHandleInformation.

Shallow embedding: the four native OS entry points are modelled as oracles
and an explicit per-process handle-table state.

- NtQuerySystemInformation is a function from the supplied buffer size to a
  response (status, required length, record count, record buffer).
- NtQueryObject is a function from a handle value to a response
  (status, type name).
- GetHandleInformation and SetHandleInformation read and write an OSState
  that carries the per-handle flags word and per-handle success switches,
  so that OS-level failures of either call can be injected.

The lazy generator pipeline of the Python source is embedded as follows:
getSystemHandles materialises its yields into a list (the records all come
from one successful NtQuerySystemInformation call); filterSystemHandlesByPID
is the pure list filter realised by its loop; filterSystemHandlesByTypeName,
which performs one NtQueryObject call per consumed record, is given both as
a standalone eager function (a consumer that drains the generator) and,
inside clearFilesLoop, fused with the per-handle clearing loop of
clearFileHandlesInheritance so that the interleaved order of OS calls of the
lazy pipeline (type query for record k, then get/set for record k, then the
type query for record k+1, ...) is preserved exactly.
-/

namespace Win32HandleInherit

/-- One entry of the system-wide handle table, mirroring the SYSTEM_HANDLE
struct declared in the cdef block of the source (ProcessId, ObjectTypeNumber,
Flags, Handle, Object, GrantedAccess). All fields are modelled as Nat. -/
structure SYSTEM_HANDLE where
  ProcessId : Nat
  ObjectTypeNumber : Nat
  Flags : Nat
  Handle : Nat
  Object : Nat
  GrantedAccess : Nat
deriving DecidableEq, Repr

/-- Status value by which the NtQuery* APIs report that the output buffer is
too small (STATUS_INFO_LENGTH_MISMATCH = 0xc0000004 in the source). -/
def STATUS_INFO_LENGTH_MISMATCH : Nat := 0xc0000004

/-- The source casts the raw NTSTATUS to ULONG before comparing:
status = int(ffi.cast(ULONG, status)).  ULONG is 32 bits wide. -/
def castULONG (s : Nat) : Nat := s % 4294967296

/-- Response of one NtQuerySystemInformation call: the returned NTSTATUS, the
value stored through ReturnLength, and the buffer contents as seen through
the SYSTEM_HANDLE_INFORMATION cast: HandleCount plus the Handles array (an
unbounded record store; the code reads indices 0 .. HandleCount-1). -/
structure SysInfoResp where
  status : Nat
  returnLength : Nat
  handleCount : Nat
  handles : Nat → SYSTEM_HANDLE

/-- Retry loop of getSystemHandles (source lines 159-183).  The oracle maps
the supplied buffer size to the OS response.  On
STATUS_INFO_LENGTH_MISMATCH the loop retries with bufferSize := the
OS-reported needed size; on any other non-zero status it fails with that
status; on status 0 it yields Handles[0 .. HandleCount-1].  The Python loop
is unbounded, so the embedding takes explicit fuel: none means the loop is
still running after that many iterations. -/
def getSystemHandlesLoop (ntQuerySystemInformation : Nat → SysInfoResp) :
    Nat → Nat → Option (Except Nat (List SYSTEM_HANDLE))
  | 0, _ => none
  | fuel + 1, bufferSize =>
    let r := ntQuerySystemInformation bufferSize
    let status := castULONG r.status
    if status = STATUS_INFO_LENGTH_MISMATCH then
      getSystemHandlesLoop ntQuerySystemInformation fuel r.returnLength
    else if status ≠ 0 then
      some (Except.error status)
    else
      some (Except.ok ((List.range r.handleCount).map r.handles))

/-- getSystemHandles with its default initial buffer size of 1000. -/
def getSystemHandles (ntQuerySystemInformation : Nat → SysInfoResp)
    (fuel : Nat) : Option (Except Nat (List SYSTEM_HANDLE)) :=
  getSystemHandlesLoop ntQuerySystemInformation fuel 1000

/-- filterSystemHandlesByPID (source lines 189-197): yields the records whose
ProcessId equals pid, in input order.  Pure: no OS call is involved. -/
def filterSystemHandlesByPID : List SYSTEM_HANDLE → Nat → List SYSTEM_HANDLE
  | [], _ => []
  | sh :: rest, pid =>
    if sh.ProcessId = pid then sh :: filterSystemHandlesByPID rest pid
    else filterSystemHandlesByPID rest pid

/-- Response of one NtQueryObject call on a handle: the returned NTSTATUS and
the TypeName string of the PUBLIC_OBJECT_TYPE_INFORMATION structure. -/
structure ObjResp where
  status : Nat
  typeName : String

/-- Errors raised by the module.  The NtQuery* failures carry the ULONG-cast
status code (the source interpolates it into the exception message); the
GetHandleInformation and SetHandleInformation failures carry none, matching
the plain messages raised by the source. -/
inductive OSError where
  | querySystemStatus (status : Nat)
  | queryObjectBufferTooSmall
  | queryObjectStatus (status : Nat)
  | getHandleInformationFailed
  | setHandleInformationFailed
deriving DecidableEq, Repr

/-- filterSystemHandlesByTypeName (source lines 203-231), drained eagerly.
For each record, one NtQueryObject call is issued on its Handle with a
fixed 1024-byte buffer.  STATUS_INFO_LENGTH_MISMATCH is fatal here (no
retry, unlike getSystemHandles); any other non-zero status is fatal too;
otherwise the record is kept iff its TypeName equals typeName exactly. -/
def filterSystemHandlesByTypeName (ntQueryObject : Nat → ObjResp) :
    List SYSTEM_HANDLE → String → Except OSError (List SYSTEM_HANDLE)
  | [], _ => Except.ok []
  | sh :: rest, typeName =>
    let status := castULONG (ntQueryObject sh.Handle).status
    if status = STATUS_INFO_LENGTH_MISMATCH then
      Except.error OSError.queryObjectBufferTooSmall
    else if status ≠ 0 then
      Except.error (OSError.queryObjectStatus status)
    else
      match filterSystemHandlesByTypeName ntQueryObject rest typeName with
      | Except.error e => Except.error e
      | Except.ok kept =>
        Except.ok
          (if (ntQueryObject sh.Handle).typeName = typeName then sh :: kept
           else kept)

/-- handlesFromSystemHandles (source lines 237-240): project each record to
its raw Handle value. -/
def handlesFromSystemHandles (l : List SYSTEM_HANDLE) : List Nat :=
  l.map SYSTEM_HANDLE.Handle

/-- HANDLE_FLAG_INHERIT = 0x00000001 (winbase.h). -/
def HANDLE_FLAG_INHERIT : Nat := 1

/-- State of the current process visible to GetHandleInformation and
SetHandleInformation: the per-handle flags word, and per-handle switches
telling whether each of the two calls succeeds (BOOL result nonzero),
so OS-level failures can be injected. -/
structure OSState where
  flags : Nat → Nat
  getOk : Nat → Bool
  setOk : Nat → Bool

/-- GetHandleInformation: on success returns the flags word of the handle
through lpdwFlags; on failure returns BOOL 0, modelled as none. -/
def GetHandleInformation (st : OSState) (hObject : Nat) : Option Nat :=
  if st.getOk hObject then some (st.flags hObject) else none

/-- DWORD update performed by SetHandleInformation: every flag bit selected
by dwMask is set to the corresponding bit of dwFlags, every other bit keeps
its old value.  old ^^^ (old &&& mask) clears exactly the mask bits of old;
the mask bits of dwFlags are then merged in. -/
def setFlagsWord (old dwMask dwFlags : Nat) : Nat :=
  (old ^^^ (old &&& dwMask)) ||| (dwFlags &&& dwMask)

/-- State after a successful SetHandleInformation on hObject: only the flags
word of hObject changes, by setFlagsWord. -/
def setState (st : OSState) (hObject dwMask dwFlags : Nat) : OSState :=
  { st with
    flags := fun x =>
      if x = hObject then setFlagsWord (st.flags x) dwMask dwFlags
      else st.flags x }

/-- SetHandleInformation: on success updates the flags word of hObject as
described by dwMask and dwFlags and returns the new state; on failure
returns BOOL 0, modelled as none, and the state is unchanged. -/
def SetHandleInformation (st : OSState) (hObject dwMask dwFlags : Nat) :
    Option OSState :=
  if st.setOk hObject then some (setState st hObject dwMask dwFlags)
  else none

/-- isHandleInheritable (source lines 250-266): calls GetHandleInformation
and, on success, reports whether the HANDLE_FLAG_INHERIT bit is set; raises
on failure. -/
def isHandleInheritable (st : OSState) (handle : Nat) :
    Except OSError Bool :=
  match GetHandleInformation st handle with
  | none => Except.error OSError.getHandleInformationFailed
  | some w => Except.ok (decide (w &&& HANDLE_FLAG_INHERIT ≠ 0))

/-- clearHandleInheritance (source lines 269-283): calls
SetHandleInformation(handle, HANDLE_FLAG_INHERIT, 0) unconditionally (it
performs no flag query of its own) and raises on failure. -/
def clearHandleInheritance (st : OSState) (handle : Nat) :
    Except OSError OSState :=
  match SetHandleInformation st handle HANDLE_FLAG_INHERIT 0 with
  | none => Except.error OSError.setHandleInformationFailed
  | some st2 => Except.ok st2

/-- Record of one SetHandleInformation invocation (its three arguments). -/
structure SetCall where
  handle : Nat
  dwMask : Nat
  dwFlags : Nat
deriving DecidableEq, Repr

/-- Outcome of a run of the clearing pipeline: the error it stopped with
(none on success), the final handle-table state, and the list of
SetHandleInformation calls issued, in order (a failing invocation is
recorded too: the call was issued even though it mutated nothing). -/
structure RunResult where
  err : Option OSError
  state : OSState
  calls : List SetCall

/-- Fusion of the lazy tail of the pipeline of clearFileHandlesInheritance
(source lines 295-298) with the per-record body of
filterSystemHandlesByTypeName (source lines 215-231): for each record, in
input order, one NtQueryObject call (fatal on mismatch or other non-zero
status), then, if the TypeName matches, isHandleInheritable on the Handle
of the record and, only when that reports true, clearHandleInheritance.  This is
exactly the order in which the Python generators interleave the OS calls. -/
def clearFilesLoop (qo : Nat → ObjResp) (typeName : String) :
    List SYSTEM_HANDLE → OSState → RunResult
  | [], st => ⟨none, st, []⟩
  | sh :: rest, st =>
    let status := castULONG (qo sh.Handle).status
    if status = STATUS_INFO_LENGTH_MISMATCH then
      ⟨some OSError.queryObjectBufferTooSmall, st, []⟩
    else if status ≠ 0 then
      ⟨some (OSError.queryObjectStatus status), st, []⟩
    else if (qo sh.Handle).typeName = typeName then
      match isHandleInheritable st sh.Handle with
      | Except.error e => ⟨some e, st, []⟩
      | Except.ok b =>
        if b then
          match clearHandleInheritance st sh.Handle with
          | Except.error e =>
            ⟨some e, st, [⟨sh.Handle, HANDLE_FLAG_INHERIT, 0⟩]⟩
          | Except.ok st2 =>
            let res := clearFilesLoop qo typeName rest st2
            ⟨res.err, res.state, ⟨sh.Handle, HANDLE_FLAG_INHERIT, 0⟩ :: res.calls⟩
        else clearFilesLoop qo typeName rest st
    else clearFilesLoop qo typeName rest st

/-- The operating-system model a run of the top-level operation sees: the two
NtQuery oracles, the pid returned by os.getpid(), and the handle-table
state read and written by GetHandleInformation and SetHandleInformation. -/
structure OS where
  querySystem : Nat → SysInfoResp
  queryObject : Nat → ObjResp
  pid : Nat
  state : OSState

/-- clearFileHandlesInheritance (source lines 286-298): enumerate all system
handles (initial buffer size 1000), keep those of the current process, then
run the fused type-filter / inheritance-clearing loop with typeName "File".
none means the enumeration retry loop was still running when the fuel ran
out; a failing enumeration aborts the run with querySystemStatus before any
further OS call. -/
def clearFileHandlesInheritance (fuel : Nat) (os : OS) : Option RunResult :=
  match getSystemHandlesLoop os.querySystem fuel 1000 with
  | none => none
  | some (Except.error s) => some ⟨some (OSError.querySystemStatus s), os.state, []⟩
  | some (Except.ok all) =>
    some
      (clearFilesLoop os.queryObject "File"
        (filterSystemHandlesByPID all os.pid) os.state)

/-
Concrete OS models used to evaluate the definitions on closed inputs.
-/

/-- A throwaway SYSTEM_HANDLE record used to fill unread buffer slots. -/
def dummyHandle : SYSTEM_HANDLE := ⟨0, 0, 0, 0, 0, 0⟩

/-- An adversarial NtQuerySystemInformation oracle: at every buffer size it
reports STATUS_INFO_LENGTH_MISMATCH with required length equal to the very
size that was supplied, so the retry buffer never grows. -/
def ntSameSize : Nat → SysInfoResp :=
  fun b => ⟨STATUS_INFO_LENGTH_MISMATCH, b, 0, fun _ => dummyHandle⟩

/-- A well-behaved NtQuerySystemInformation oracle: required buffer size 3,
two records present, stable buffer contents at every sufficient size. -/
def ntTwoRecords : Nat → SysInfoResp := fun b =>
  if b < 3 then ⟨STATUS_INFO_LENGTH_MISMATCH, 3, 0, fun _ => dummyHandle⟩
  else ⟨0, 0, 2, fun i => ⟨i, 0, 0, i + 10, 0, 0⟩⟩

/-- The five-record handle table of the worked example in the specification:
two records owned by process 42 (handle 6 of type File with the inherit bit
set in the table state below, handle 7 of type File with it clear) and three
records owned by other processes. -/
def exampleTable : List SYSTEM_HANDLE :=
  [⟨42, 0, 0, 6, 0, 0⟩, ⟨42, 0, 0, 7, 0, 0⟩,
   ⟨7, 0, 0, 8, 0, 0⟩, ⟨8, 0, 0, 9, 0, 0⟩, ⟨9, 0, 0, 10, 0, 0⟩]

/-- Enumeration oracle for the worked example: always succeeds, reports five
records, buffer slot i holds record i of exampleTable. -/
def exampleQuerySystem : Nat → SysInfoResp :=
  fun _ => ⟨0, 0, 5, fun i => exampleTable.getD i dummyHandle⟩

/-- NtQueryObject oracle for the worked example: handles 6 and 7 are of type
File, every other handle is an Event; all queries succeed. -/
def exampleQueryObject : Nat → ObjResp :=
  fun h => if h = 6 then ⟨0, "File"⟩
    else if h = 7 then ⟨0, "File"⟩
    else ⟨0, "Event"⟩

/-- Handle-table state for the worked example: handle 6 has the inherit bit
set, every other flags word is 0; both flag calls always succeed. -/
def exampleState : OSState :=
  { flags := fun h => if h = 6 then 1 else 0
    getOk := fun _ => true
    setOk := fun _ => true }

/-- The complete OS model of the worked example, as seen by a run of
clearFileHandlesInheritance in process 42. -/
def exampleOS : OS :=
  { querySystem := exampleQuerySystem
    queryObject := exampleQueryObject
    pid := 42
    state := exampleState }

/-- Result of running the fused clearing loop of the worked example. -/
def exampleRun : RunResult :=
  clearFilesLoop exampleQueryObject "File"
    (filterSystemHandlesByPID exampleTable 42) exampleState

/-- NtQueryObject oracle with injected faults: handle 3 is a non-File object,
handle 4 reports the buffer-too-small status, handle 5 reports the fatal
status 0xc0000008, every other handle is a File; used to exercise the error
paths of the type filter and of the clearing loop. -/
def faultQueryObject : Nat → ObjResp :=
  fun h =>
    if h = 3 then ⟨0, "Event"⟩
    else if h = 4 then ⟨STATUS_INFO_LENGTH_MISMATCH, "File"⟩
    else if h = 5 then ⟨0xc0000008, "File"⟩
    else ⟨0, "File"⟩

/-- Handle-table state in which every flag call succeeds and handles 1 and 2
have the inherit bit set. -/
def plainState : OSState :=
  { flags := fun h => if h = 1 then 1 else if h = 2 then 3 else 0
    getOk := fun _ => true
    setOk := fun _ => true }

/-- Handle-table state in which SetHandleInformation always fails; handle 2
has the inherit bit set, handle 1 has it clear. -/
def setFailState : OSState :=
  { flags := fun h => if h = 2 then 1 else 0
    getOk := fun _ => true
    setOk := fun _ => false }

/-
Lemmas about the flag-word arithmetic.
-/

lemma and_one_eq_zero_iff (w : Nat) : w &&& 1 = 0 ↔ w.testBit 0 = false := by
  rw [Nat.and_one_is_mod, Nat.testBit_zero]
  simp only [decide_eq_false_iff_not]
  omega

lemma setFlagsWord_testBit (w m v i : Nat) :
    (setFlagsWord w m v).testBit i =
      if m.testBit i then v.testBit i else w.testBit i := by
  simp only [setFlagsWord, Nat.testBit_or, Nat.testBit_xor, Nat.testBit_and]
  cases m.testBit i <;> cases w.testBit i <;> cases v.testBit i <;> simp

lemma one_testBit (i : Nat) (h : i ≠ 0) : Nat.testBit 1 i = false := by
  have h1 : (2 ^ 0 : Nat) = 1 := by norm_num
  rw [← h1]
  exact Nat.testBit_two_pow_of_ne fun hh => h hh.symm

lemma clearWord_bit0 (w : Nat) :
    (setFlagsWord w HANDLE_FLAG_INHERIT 0).testBit 0 = false := by
  rw [setFlagsWord_testBit]
  simp [HANDLE_FLAG_INHERIT, Nat.testBit_zero]

lemma clearWord_and_one (w : Nat) :
    setFlagsWord w HANDLE_FLAG_INHERIT 0 &&& 1 = 0 := by
  rw [and_one_eq_zero_iff]
  exact clearWord_bit0 w

lemma clearWord_testBit_ne (w i : Nat) (h : i ≠ 0) :
    (setFlagsWord w HANDLE_FLAG_INHERIT 0).testBit i = w.testBit i := by
  rw [setFlagsWord_testBit]
  simp [HANDLE_FLAG_INHERIT, one_testBit i h]

lemma clearWord_of_bit0_clear (w : Nat) (h : w &&& 1 = 0) :
    setFlagsWord w HANDLE_FLAG_INHERIT 0 = w := by
  apply Nat.eq_of_testBit_eq
  intro i
  by_cases hi : i = 0
  · subst hi
    rw [clearWord_bit0, ((and_one_eq_zero_iff w).mp h).symm]
  · exact clearWord_testBit_ne w i hi

lemma clearWord_idem (w : Nat) :
    setFlagsWord (setFlagsWord w HANDLE_FLAG_INHERIT 0) HANDLE_FLAG_INHERIT 0 =
      setFlagsWord w HANDLE_FLAG_INHERIT 0 :=
  clearWord_of_bit0_clear _ (clearWord_and_one w)

/-
Rewrite lemmas for the two flag calls and step equations for the loops.
-/

lemma isHandleInheritable_getOk (st : OSState) (x : Nat)
    (h : st.getOk x = true) :
    isHandleInheritable st x =
      Except.ok (decide (st.flags x &&& HANDLE_FLAG_INHERIT ≠ 0)) := by
  simp [isHandleInheritable, GetHandleInformation, h]

lemma isHandleInheritable_getFail (st : OSState) (x : Nat)
    (h : st.getOk x = false) :
    isHandleInheritable st x = Except.error OSError.getHandleInformationFailed := by
  simp [isHandleInheritable, GetHandleInformation, h]

lemma clearHandleInheritance_setOk (st : OSState) (x : Nat)
    (h : st.setOk x = true) :
    clearHandleInheritance st x =
      Except.ok (setState st x HANDLE_FLAG_INHERIT 0) := by
  simp [clearHandleInheritance, SetHandleInformation, h]

lemma clearHandleInheritance_setFail (st : OSState) (x : Nat)
    (h : st.setOk x = false) :
    clearHandleInheritance st x = Except.error OSError.setHandleInformationFailed := by
  simp [clearHandleInheritance, SetHandleInformation, h]

lemma setState_getOk (st : OSState) (x m v : Nat) :
    (setState st x m v).getOk = st.getOk := rfl

lemma setState_setOk (st : OSState) (x m v : Nat) :
    (setState st x m v).setOk = st.setOk := rfl

lemma setState_flags_self (st : OSState) (x m v : Nat) :
    (setState st x m v).flags x = setFlagsWord (st.flags x) m v := by
  simp [setState]

lemma setState_flags_other (st : OSState) (x m v y : Nat) (h : y ≠ x) :
    (setState st x m v).flags y = st.flags y := by
  simp [setState, h]

lemma getSystemHandlesLoop_mismatch (nt : Nat → SysInfoResp) (fuel b : Nat)
    (h : castULONG (nt b).status = STATUS_INFO_LENGTH_MISMATCH) :
    getSystemHandlesLoop nt (fuel + 1) b =
      getSystemHandlesLoop nt fuel (nt b).returnLength := by
  simp [getSystemHandlesLoop, h]

lemma getSystemHandlesLoop_fail (nt : Nat → SysInfoResp) (fuel b : Nat)
    (h1 : castULONG (nt b).status ≠ STATUS_INFO_LENGTH_MISMATCH)
    (h2 : castULONG (nt b).status ≠ 0) :
    getSystemHandlesLoop nt (fuel + 1) b =
      some (Except.error (castULONG (nt b).status)) := by
  simp [getSystemHandlesLoop, h1, h2]

lemma getSystemHandlesLoop_ok (nt : Nat → SysInfoResp) (fuel b : Nat)
    (h : castULONG (nt b).status = 0) :
    getSystemHandlesLoop nt (fuel + 1) b =
      some (Except.ok ((List.range (nt b).handleCount).map (nt b).handles)) := by
  simp [getSystemHandlesLoop, h, STATUS_INFO_LENGTH_MISMATCH]

lemma clearFilesLoop_nil (qo : Nat → ObjResp) (t : String) (st : OSState) :
    clearFilesLoop qo t [] st = ⟨none, st, []⟩ := rfl

lemma clearFilesLoop_mismatch (qo : Nat → ObjResp) (t : String)
    (sh : SYSTEM_HANDLE) (rest : List SYSTEM_HANDLE) (st : OSState)
    (h : castULONG (qo sh.Handle).status = STATUS_INFO_LENGTH_MISMATCH) :
    clearFilesLoop qo t (sh :: rest) st =
      ⟨some OSError.queryObjectBufferTooSmall, st, []⟩ := by
  simp [clearFilesLoop, h]

lemma clearFilesLoop_badStatus (qo : Nat → ObjResp) (t : String)
    (sh : SYSTEM_HANDLE) (rest : List SYSTEM_HANDLE) (st : OSState)
    (h1 : castULONG (qo sh.Handle).status ≠ STATUS_INFO_LENGTH_MISMATCH)
    (h2 : castULONG (qo sh.Handle).status ≠ 0) :
    clearFilesLoop qo t (sh :: rest) st =
      ⟨some (OSError.queryObjectStatus (castULONG (qo sh.Handle).status)), st, []⟩ := by
  simp [clearFilesLoop, h1, h2]

lemma clearFilesLoop_notType (qo : Nat → ObjResp) (t : String)
    (sh : SYSTEM_HANDLE) (rest : List SYSTEM_HANDLE) (st : OSState)
    (h1 : castULONG (qo sh.Handle).status = 0)
    (h2 : (qo sh.Handle).typeName ≠ t) :
    clearFilesLoop qo t (sh :: rest) st = clearFilesLoop qo t rest st := by
  simp [clearFilesLoop, h1, h2, STATUS_INFO_LENGTH_MISMATCH]

lemma clearFilesLoop_getFail (qo : Nat → ObjResp) (t : String)
    (sh : SYSTEM_HANDLE) (rest : List SYSTEM_HANDLE) (st : OSState)
    (h1 : castULONG (qo sh.Handle).status = 0)
    (h2 : (qo sh.Handle).typeName = t)
    (h3 : st.getOk sh.Handle = false) :
    clearFilesLoop qo t (sh :: rest) st =
      ⟨some OSError.getHandleInformationFailed, st, []⟩ := by
  simp [clearFilesLoop, h1, h2, STATUS_INFO_LENGTH_MISMATCH,
        isHandleInheritable_getFail st sh.Handle h3]

lemma clearFilesLoop_notInheritable (qo : Nat → ObjResp) (t : String)
    (sh : SYSTEM_HANDLE) (rest : List SYSTEM_HANDLE) (st : OSState)
    (h1 : castULONG (qo sh.Handle).status = 0)
    (h2 : (qo sh.Handle).typeName = t)
    (h3 : st.getOk sh.Handle = true)
    (h4 : st.flags sh.Handle &&& HANDLE_FLAG_INHERIT = 0) :
    clearFilesLoop qo t (sh :: rest) st = clearFilesLoop qo t rest st := by
  simp [clearFilesLoop, h1, h2, STATUS_INFO_LENGTH_MISMATCH,
        isHandleInheritable_getOk st sh.Handle h3, h4]

lemma clearFilesLoop_setFail (qo : Nat → ObjResp) (t : String)
    (sh : SYSTEM_HANDLE) (rest : List SYSTEM_HANDLE) (st : OSState)
    (h1 : castULONG (qo sh.Handle).status = 0)
    (h2 : (qo sh.Handle).typeName = t)
    (h3 : st.getOk sh.Handle = true)
    (h4 : st.flags sh.Handle &&& HANDLE_FLAG_INHERIT ≠ 0)
    (h5 : st.setOk sh.Handle = false) :
    clearFilesLoop qo t (sh :: rest) st =
      ⟨some OSError.setHandleInformationFailed, st,
       [⟨sh.Handle, HANDLE_FLAG_INHERIT, 0⟩]⟩ := by
  simp [clearFilesLoop, h1, h2, STATUS_INFO_LENGTH_MISMATCH,
        isHandleInheritable_getOk st sh.Handle h3, h4,
        clearHandleInheritance_setFail st sh.Handle h5]

lemma clearFilesLoop_clear (qo : Nat → ObjResp) (t : String)
    (sh : SYSTEM_HANDLE) (rest : List SYSTEM_HANDLE) (st : OSState)
    (h1 : castULONG (qo sh.Handle).status = 0)
    (h2 : (qo sh.Handle).typeName = t)
    (h3 : st.getOk sh.Handle = true)
    (h4 : st.flags sh.Handle &&& HANDLE_FLAG_INHERIT ≠ 0)
    (h5 : st.setOk sh.Handle = true) :
    clearFilesLoop qo t (sh :: rest) st =
      ⟨(clearFilesLoop qo t rest (setState st sh.Handle HANDLE_FLAG_INHERIT 0)).err,
       (clearFilesLoop qo t rest (setState st sh.Handle HANDLE_FLAG_INHERIT 0)).state,
       ⟨sh.Handle, HANDLE_FLAG_INHERIT, 0⟩ ::
         (clearFilesLoop qo t rest (setState st sh.Handle HANDLE_FLAG_INHERIT 0)).calls⟩ := by
  simp [clearFilesLoop, h1, h2, STATUS_INFO_LENGTH_MISMATCH,
        isHandleInheritable_getOk st sh.Handle h3, h4,
        clearHandleInheritance_setOk st sh.Handle h5]

/-
Structural lemmas about clearFilesLoop.
-/

lemma clearFilesLoop_state_shape (qo : Nat → ObjResp) (t : String)
    (hs : List SYSTEM_HANDLE) : ∀ (st : OSState),
    (clearFilesLoop qo t hs st).state.getOk = st.getOk ∧
    (clearFilesLoop qo t hs st).state.setOk = st.setOk ∧
    ∀ x, (clearFilesLoop qo t hs st).state.flags x = st.flags x ∨
      (clearFilesLoop qo t hs st).state.flags x =
        setFlagsWord (st.flags x) HANDLE_FLAG_INHERIT 0 := by
  induction hs with
  | nil => intro st; exact ⟨rfl, rfl, fun x => Or.inl rfl⟩
  | cons sh rest ih =>
    intro st
    by_cases h1 : castULONG (qo sh.Handle).status = STATUS_INFO_LENGTH_MISMATCH
    · rw [clearFilesLoop_mismatch qo t sh rest st h1]
      exact ⟨rfl, rfl, fun x => Or.inl rfl⟩
    by_cases h2 : castULONG (qo sh.Handle).status = 0
    case neg =>
      rw [clearFilesLoop_badStatus qo t sh rest st h1 h2]
      exact ⟨rfl, rfl, fun x => Or.inl rfl⟩
    by_cases h3 : (qo sh.Handle).typeName = t
    case neg =>
      rw [clearFilesLoop_notType qo t sh rest st h2 h3]
      exact ih st
    by_cases h4 : st.getOk sh.Handle = true
    case neg =>
      rw [clearFilesLoop_getFail qo t sh rest st h2 h3 (by simpa using h4)]
      exact ⟨rfl, rfl, fun x => Or.inl rfl⟩
    by_cases h5 : st.flags sh.Handle &&& HANDLE_FLAG_INHERIT = 0
    case pos =>
      rw [clearFilesLoop_notInheritable qo t sh rest st h2 h3 h4 h5]
      exact ih st
    by_cases h6 : st.setOk sh.Handle = true
    case neg =>
      rw [clearFilesLoop_setFail qo t sh rest st h2 h3 h4 h5 (by simpa using h6)]
      exact ⟨rfl, rfl, fun x => Or.inl rfl⟩
    rw [clearFilesLoop_clear qo t sh rest st h2 h3 h4 h5 h6]
    obtain ⟨hg, hs2, hf⟩ := ih (setState st sh.Handle HANDLE_FLAG_INHERIT 0)
    refine ⟨hg, hs2, fun x => ?_⟩
    rcases hf x with hl | hr
    · by_cases hx : x = sh.Handle
      · subst hx
        rw [hl, setState_flags_self]
        exact Or.inr rfl
      · rw [hl, setState_flags_other st _ _ _ x hx]
        exact Or.inl rfl
    · by_cases hx : x = sh.Handle
      · subst hx
        rw [hr, setState_flags_self]
        exact Or.inr (clearWord_idem _)
      · rw [hr, setState_flags_other st _ _ _ x hx]
        exact Or.inr rfl

lemma clearFilesLoop_flags_bit0 (qo : Nat → ObjResp) (t : String)
    (hs : List SYSTEM_HANDLE) (st : OSState) (x : Nat)
    (h : st.flags x &&& HANDLE_FLAG_INHERIT = 0) :
    (clearFilesLoop qo t hs st).state.flags x &&& HANDLE_FLAG_INHERIT = 0 := by
  rcases (clearFilesLoop_state_shape qo t hs st).2.2 x with hl | hr
  · rw [hl]; exact h
  · rw [hr]; exact clearWord_and_one _

lemma clearFilesLoop_success_clears (qo : Nat → ObjResp) (t : String)
    (hs : List SYSTEM_HANDLE) : ∀ (st : OSState),
    (clearFilesLoop qo t hs st).err = none →
    ∀ sh ∈ hs, (qo sh.Handle).typeName = t →
      (clearFilesLoop qo t hs st).state.flags sh.Handle &&& HANDLE_FLAG_INHERIT = 0 ∧
      st.getOk sh.Handle = true := by
  induction hs with
  | nil => intro st _ sh hmem; exact absurd hmem (List.not_mem_nil sh)
  | cons sh0 rest ih =>
    intro st herr sh hmem htype
    by_cases h1 : castULONG (qo sh0.Handle).status = STATUS_INFO_LENGTH_MISMATCH
    · rw [clearFilesLoop_mismatch qo t sh0 rest st h1] at herr
      exact absurd herr (by simp)
    by_cases h2 : castULONG (qo sh0.Handle).status = 0
    case neg =>
      rw [clearFilesLoop_badStatus qo t sh0 rest st h1 h2] at herr
      exact absurd herr (by simp)
    by_cases h3 : (qo sh0.Handle).typeName = t
    case neg =>
      rw [clearFilesLoop_notType qo t sh0 rest st h2 h3] at herr ⊢
      rcases List.mem_cons.mp hmem with heq | hmem2
      · subst heq; exact absurd htype h3
      · exact ih st herr sh hmem2 htype
    by_cases h4 : st.getOk sh0.Handle = true
    case neg =>
      rw [clearFilesLoop_getFail qo t sh0 rest st h2 h3 (by simpa using h4)] at herr
      exact absurd herr (by simp)
    by_cases h5 : st.flags sh0.Handle &&& HANDLE_FLAG_INHERIT = 0
    case pos =>
      rw [clearFilesLoop_notInheritable qo t sh0 rest st h2 h3 h4 h5] at herr ⊢
      rcases List.mem_cons.mp hmem with heq | hmem2
      · subst heq
        exact ⟨clearFilesLoop_flags_bit0 qo t rest st sh.Handle h5, h4⟩
      · exact ih st herr sh hmem2 htype
    by_cases h6 : st.setOk sh0.Handle = true
    case neg =>
      rw [clearFilesLoop_setFail qo t sh0 rest st h2 h3 h4 h5 (by simpa using h6)] at herr
      exact absurd herr (by simp)
    rw [clearFilesLoop_clear qo t sh0 rest st h2 h3 h4 h5 h6] at herr ⊢
    have herr2 : (clearFilesLoop qo t rest
        (setState st sh0.Handle HANDLE_FLAG_INHERIT 0)).err = none := herr
    have hbit2 : (setState st sh0.Handle HANDLE_FLAG_INHERIT 0).flags sh0.Handle &&&
        HANDLE_FLAG_INHERIT = 0 := by
      rw [setState_flags_self]
      exact clearWord_and_one _
    rcases List.mem_cons.mp hmem with heq | hmem2
    · subst heq
      exact ⟨clearFilesLoop_flags_bit0 qo t rest _ sh.Handle hbit2, h4⟩
    · obtain ⟨hfl, hgo⟩ := ih _ herr2 sh hmem2 htype
      exact ⟨hfl, hgo⟩

lemma clearFilesLoop_idem (qo : Nat → ObjResp) (t : String)
    (hs : List SYSTEM_HANDLE) : ∀ (st : OSState),
    (clearFilesLoop qo t hs st).err = none →
    clearFilesLoop qo t hs (clearFilesLoop qo t hs st).state =
      ⟨none, (clearFilesLoop qo t hs st).state, []⟩ := by
  induction hs with
  | nil => intro st _; exact clearFilesLoop_nil qo t _
  | cons sh rest ih =>
    intro st herr
    by_cases h1 : castULONG (qo sh.Handle).status = STATUS_INFO_LENGTH_MISMATCH
    · rw [clearFilesLoop_mismatch qo t sh rest st h1] at herr
      exact absurd herr (by simp)
    by_cases h2 : castULONG (qo sh.Handle).status = 0
    case neg =>
      rw [clearFilesLoop_badStatus qo t sh rest st h1 h2] at herr
      exact absurd herr (by simp)
    by_cases h3 : (qo sh.Handle).typeName = t
    case neg =>
      rw [clearFilesLoop_notType qo t sh rest st h2 h3] at herr ⊢
      rw [clearFilesLoop_notType qo t sh rest _ h2 h3]
      exact ih st herr
    by_cases h4 : st.getOk sh.Handle = true
    case neg =>
      rw [clearFilesLoop_getFail qo t sh rest st h2 h3 (by simpa using h4)] at herr
      exact absurd herr (by simp)
    by_cases h5 : st.flags sh.Handle &&& HANDLE_FLAG_INHERIT = 0
    case pos =>
      rw [clearFilesLoop_notInheritable qo t sh rest st h2 h3 h4 h5] at herr ⊢
      have h4b : (clearFilesLoop qo t rest st).state.getOk sh.Handle = true := by
        rw [(clearFilesLoop_state_shape qo t rest st).1]
        exact h4
      rw [clearFilesLoop_notInheritable qo t sh rest _ h2 h3 h4b
        (clearFilesLoop_flags_bit0 qo t rest st sh.Handle h5)]
      exact ih st herr
    by_cases h6 : st.setOk sh.Handle = true
    case neg =>
      rw [clearFilesLoop_setFail qo t sh rest st h2 h3 h4 h5 (by simpa using h6)] at herr
      exact absurd herr (by simp)
    rw [clearFilesLoop_clear qo t sh rest st h2 h3 h4 h5 h6] at herr ⊢
    have herr2 : (clearFilesLoop qo t rest
        (setState st sh.Handle HANDLE_FLAG_INHERIT 0)).err = none := herr
    have hbit2 : (setState st sh.Handle HANDLE_FLAG_INHERIT 0).flags sh.Handle &&&
        HANDLE_FLAG_INHERIT = 0 := by
      rw [setState_flags_self]
      exact clearWord_and_one _
    have h4b : (clearFilesLoop qo t rest
        (setState st sh.Handle HANDLE_FLAG_INHERIT 0)).state.getOk sh.Handle = true := by
      rw [(clearFilesLoop_state_shape qo t rest _).1]
      exact h4
    rw [clearFilesLoop_notInheritable qo t sh rest _ h2 h3 h4b
      (clearFilesLoop_flags_bit0 qo t rest _ sh.Handle hbit2)]
    exact ih _ herr2

lemma clearFilesLoop_calls (qo : Nat → ObjResp) (t : String)
    (hs : List SYSTEM_HANDLE) : ∀ (st : OSState),
    (clearFilesLoop qo t hs st).err = none →
    (hs.map SYSTEM_HANDLE.Handle).Nodup →
    (clearFilesLoop qo t hs st).calls =
      (hs.filter fun sh =>
          ((qo sh.Handle).typeName == t) &&
            (st.flags sh.Handle &&& HANDLE_FLAG_INHERIT != 0)).map
        (fun sh => ⟨sh.Handle, HANDLE_FLAG_INHERIT, 0⟩) := by
  induction hs with
  | nil => intro st _ _; rfl
  | cons sh rest ih =>
    intro st herr hnd
    rw [List.map_cons, List.nodup_cons] at hnd
    obtain ⟨hnotin, hnd2⟩ := hnd
    by_cases h1 : castULONG (qo sh.Handle).status = STATUS_INFO_LENGTH_MISMATCH
    · rw [clearFilesLoop_mismatch qo t sh rest st h1] at herr
      exact absurd herr (by simp)
    by_cases h2 : castULONG (qo sh.Handle).status = 0
    case neg =>
      rw [clearFilesLoop_badStatus qo t sh rest st h1 h2] at herr
      exact absurd herr (by simp)
    by_cases h3 : (qo sh.Handle).typeName = t
    case neg =>
      rw [clearFilesLoop_notType qo t sh rest st h2 h3] at herr ⊢
      rw [List.filter_cons_of_neg (by simp [h3])]
      exact ih st herr hnd2
    by_cases h4 : st.getOk sh.Handle = true
    case neg =>
      rw [clearFilesLoop_getFail qo t sh rest st h2 h3 (by simpa using h4)] at herr
      exact absurd herr (by simp)
    by_cases h5 : st.flags sh.Handle &&& HANDLE_FLAG_INHERIT = 0
    case pos =>
      rw [clearFilesLoop_notInheritable qo t sh rest st h2 h3 h4 h5] at herr ⊢
      rw [List.filter_cons_of_neg (by simp [h5])]
      exact ih st herr hnd2
    by_cases h6 : st.setOk sh.Handle = true
    case neg =>
      rw [clearFilesLoop_setFail qo t sh rest st h2 h3 h4 h5 (by simpa using h6)] at herr
      exact absurd herr (by simp)
    rw [clearFilesLoop_clear qo t sh rest st h2 h3 h4 h5 h6] at herr ⊢
    have herr2 : (clearFilesLoop qo t rest
        (setState st sh.Handle HANDLE_FLAG_INHERIT 0)).err = none := herr
    rw [List.filter_cons_of_pos (by simp [h3, h5])]
    rw [List.map_cons]
    have hcalls := ih _ herr2 hnd2
    have hfeq : rest.filter (fun g =>
        ((qo g.Handle).typeName == t) &&
          ((setState st sh.Handle HANDLE_FLAG_INHERIT 0).flags g.Handle &&&
            HANDLE_FLAG_INHERIT != 0)) =
        rest.filter (fun g =>
          ((qo g.Handle).typeName == t) &&
            (st.flags g.Handle &&& HANDLE_FLAG_INHERIT != 0)) := by
      apply List.filter_congr
      intro g hg
      have hne : g.Handle ≠ sh.Handle := by
        intro hcontra
        exact hnotin (hcontra ▸ List.mem_map_of_mem SYSTEM_HANDLE.Handle hg)
      rw [setState_flags_other st _ _ _ g.Handle hne]
    rw [hfeq] at hcalls
    rw [hcalls]

lemma clearFilesLoop_append_fail (qo : Nat → ObjResp) (t : String)
    (l1 : List SYSTEM_HANDLE) : ∀ (st : OSState) (l2 : List SYSTEM_HANDLE),
    (clearFilesLoop qo t l1 st).err ≠ none →
    clearFilesLoop qo t (l1 ++ l2) st = clearFilesLoop qo t l1 st := by
  induction l1 with
  | nil => intro st l2 h; exact absurd rfl h
  | cons sh rest ih =>
    intro st l2 herr
    have hcons : (sh :: rest) ++ l2 = sh :: (rest ++ l2) := rfl
    rw [hcons]
    by_cases h1 : castULONG (qo sh.Handle).status = STATUS_INFO_LENGTH_MISMATCH
    · rw [clearFilesLoop_mismatch qo t sh rest st h1,
          clearFilesLoop_mismatch qo t sh (rest ++ l2) st h1]
    by_cases h2 : castULONG (qo sh.Handle).status = 0
    case neg =>
      rw [clearFilesLoop_badStatus qo t sh rest st h1 h2,
          clearFilesLoop_badStatus qo t sh (rest ++ l2) st h1 h2]
    by_cases h3 : (qo sh.Handle).typeName = t
    case neg =>
      rw [clearFilesLoop_notType qo t sh rest st h2 h3] at herr ⊢
      rw [clearFilesLoop_notType qo t sh (rest ++ l2) st h2 h3]
      exact ih st l2 herr
    by_cases h4 : st.getOk sh.Handle = true
    case neg =>
      rw [clearFilesLoop_getFail qo t sh rest st h2 h3 (by simpa using h4),
          clearFilesLoop_getFail qo t sh (rest ++ l2) st h2 h3 (by simpa using h4)]
    by_cases h5 : st.flags sh.Handle &&& HANDLE_FLAG_INHERIT = 0
    case pos =>
      rw [clearFilesLoop_notInheritable qo t sh rest st h2 h3 h4 h5] at herr ⊢
      rw [clearFilesLoop_notInheritable qo t sh (rest ++ l2) st h2 h3 h4 h5]
      exact ih st l2 herr
    by_cases h6 : st.setOk sh.Handle = true
    case neg =>
      rw [clearFilesLoop_setFail qo t sh rest st h2 h3 h4 h5 (by simpa using h6),
          clearFilesLoop_setFail qo t sh (rest ++ l2) st h2 h3 h4 h5 (by simpa using h6)]
    rw [clearFilesLoop_clear qo t sh rest st h2 h3 h4 h5 h6] at herr ⊢
    rw [clearFilesLoop_clear qo t sh (rest ++ l2) st h2 h3 h4 h5 h6]
    have herr2 : (clearFilesLoop qo t rest
        (setState st sh.Handle HANDLE_FLAG_INHERIT 0)).err ≠ none := by
      simpa using herr
    rw [ih _ l2 herr2]

/-
Lemmas about the two filters and the enumerator.
-/

lemma filterByPID_eq_filter (hs : List SYSTEM_HANDLE) (pid : Nat) :
    filterSystemHandlesByPID hs pid =
      hs.filter fun sh => sh.ProcessId == pid := by
  induction hs with
  | nil => rfl
  | cons sh rest ih =>
    by_cases h : sh.ProcessId = pid
    · simp [filterSystemHandlesByPID, h, List.filter_cons, ih]
    · simp [filterSystemHandlesByPID, h, List.filter_cons, ih]

lemma filterByTypeName_mismatch (qo : Nat → ObjResp) (t : String)
    (sh : SYSTEM_HANDLE) (rest : List SYSTEM_HANDLE)
    (h : castULONG (qo sh.Handle).status = STATUS_INFO_LENGTH_MISMATCH) :
    filterSystemHandlesByTypeName qo (sh :: rest) t =
      Except.error OSError.queryObjectBufferTooSmall := by
  simp [filterSystemHandlesByTypeName, h]

lemma filterByTypeName_bad (qo : Nat → ObjResp) (t : String)
    (sh : SYSTEM_HANDLE) (rest : List SYSTEM_HANDLE)
    (h1 : castULONG (qo sh.Handle).status ≠ STATUS_INFO_LENGTH_MISMATCH)
    (h2 : castULONG (qo sh.Handle).status ≠ 0) :
    filterSystemHandlesByTypeName qo (sh :: rest) t =
      Except.error (OSError.queryObjectStatus (castULONG (qo sh.Handle).status)) := by
  simp [filterSystemHandlesByTypeName, h1, h2]

lemma filterByTypeName_okStep (qo : Nat → ObjResp) (t : String)
    (sh : SYSTEM_HANDLE) (rest : List SYSTEM_HANDLE)
    (h : castULONG (qo sh.Handle).status = 0) :
    filterSystemHandlesByTypeName qo (sh :: rest) t =
      match filterSystemHandlesByTypeName qo rest t with
      | Except.error e => Except.error e
      | Except.ok kept =>
        Except.ok
          (if (qo sh.Handle).typeName = t then sh :: kept else kept) := by
  simp [filterSystemHandlesByTypeName, h, STATUS_INFO_LENGTH_MISMATCH]

lemma filterByTypeName_allOk (qo : Nat → ObjResp) (t : String)
    (hs : List SYSTEM_HANDLE)
    (h : ∀ sh ∈ hs, castULONG (qo sh.Handle).status = 0) :
    filterSystemHandlesByTypeName qo hs t =
      Except.ok (hs.filter fun sh => (qo sh.Handle).typeName == t) := by
  induction hs with
  | nil => rfl
  | cons sh rest ih =>
    have h0 := h sh (List.mem_cons_self sh rest)
    have hrest : ∀ g ∈ rest, castULONG (qo g.Handle).status = 0 :=
      fun g hg => h g (List.mem_cons_of_mem sh hg)
    rw [filterByTypeName_okStep qo t sh rest h0, ih hrest]
    by_cases ht : (qo sh.Handle).typeName = t
    · simp [List.filter_cons, ht]
    · simp [List.filter_cons, ht]

lemma filterByTypeName_firstFail (qo : Nat → ObjResp) (t : String)
    (pre : List SYSTEM_HANDLE) : ∀ (sh : SYSTEM_HANDLE) (post : List SYSTEM_HANDLE),
    (∀ g ∈ pre, castULONG (qo g.Handle).status = 0) →
    (castULONG (qo sh.Handle).status = STATUS_INFO_LENGTH_MISMATCH →
      filterSystemHandlesByTypeName qo (pre ++ sh :: post) t =
        Except.error OSError.queryObjectBufferTooSmall) ∧
    (castULONG (qo sh.Handle).status ≠ STATUS_INFO_LENGTH_MISMATCH →
      castULONG (qo sh.Handle).status ≠ 0 →
      filterSystemHandlesByTypeName qo (pre ++ sh :: post) t =
        Except.error (OSError.queryObjectStatus (castULONG (qo sh.Handle).status))) := by
  induction pre with
  | nil =>
    intro sh post _
    exact ⟨filterByTypeName_mismatch qo t sh post,
           filterByTypeName_bad qo t sh post⟩
  | cons g pre0 ih =>
    intro sh post hpre
    have hg := hpre g (List.mem_cons_self g pre0)
    have hpre0 : ∀ g2 ∈ pre0, castULONG (qo g2.Handle).status = 0 :=
      fun g2 hg2 => hpre g2 (List.mem_cons_of_mem g hg2)
    obtain ⟨ihm, ihb⟩ := ih sh post hpre0
    constructor
    · intro hm
      rw [List.cons_append, filterByTypeName_okStep qo t g (pre0 ++ sh :: post) hg,
          ihm hm]
    · intro hb1 hb2
      rw [List.cons_append, filterByTypeName_okStep qo t g (pre0 ++ sh :: post) hg,
          ihb hb1 hb2]

lemma castULONG_mismatch :
    castULONG STATUS_INFO_LENGTH_MISMATCH = STATUS_INFO_LENGTH_MISMATCH := by
  decide

lemma ntSameSize_never (fuel : Nat) :
    ∀ b, getSystemHandlesLoop ntSameSize fuel b = none := by
  induction fuel with
  | zero => intro b; rfl
  | succ f ih =>
    intro b
    rw [getSystemHandlesLoop_mismatch ntSameSize f b castULONG_mismatch]
    exact ih _

/-
Claim theorems.
-/

/-- C7: filterSystemHandlesByPID is a pure, order-preserving filter: it equals
List.filter on the owning-process field, its output is a subsequence of the
input, and a record is in the output exactly when it is in the input and its
ProcessId equals the target pid.  Zero matches and all matches are instances
of the universally quantified statement. -/
theorem claim7_pid_filter (hs : List SYSTEM_HANDLE) (pid : Nat) :
    filterSystemHandlesByPID hs pid =
      hs.filter (fun sh => sh.ProcessId == pid) ∧
    (filterSystemHandlesByPID hs pid).Sublist hs ∧
    ∀ sh, sh ∈ filterSystemHandlesByPID hs pid ↔
      sh ∈ hs ∧ sh.ProcessId = pid := by
  refine ⟨filterByPID_eq_filter hs pid, ?_, ?_⟩
  · rw [filterByPID_eq_filter]
    exact List.filter_sublist hs
  · intro sh
    rw [filterByPID_eq_filter]
    simp [List.mem_filter]

/-- C6: the type filter keeps exactly the records whose queried type name
equals the target string under exact String equality, provided every
per-object query succeeds; the first record whose query reports the
buffer-too-small status makes the whole filter fail fatally with
queryObjectBufferTooSmall (no retry), and the first record whose query
reports any other non-zero status makes it fail with that status. -/
theorem claim6_type_filter :
    (∀ (qo : Nat → ObjResp) (t : String) (hs : List SYSTEM_HANDLE),
      (∀ sh ∈ hs, castULONG (qo sh.Handle).status = 0) →
      filterSystemHandlesByTypeName qo hs t =
        Except.ok (hs.filter fun sh => (qo sh.Handle).typeName == t)) ∧
    (∀ (qo : Nat → ObjResp) (t : String) (pre : List SYSTEM_HANDLE)
        (sh : SYSTEM_HANDLE) (post : List SYSTEM_HANDLE),
      (∀ g ∈ pre, castULONG (qo g.Handle).status = 0) →
      castULONG (qo sh.Handle).status = STATUS_INFO_LENGTH_MISMATCH →
      filterSystemHandlesByTypeName qo (pre ++ sh :: post) t =
        Except.error OSError.queryObjectBufferTooSmall) ∧
    (∀ (qo : Nat → ObjResp) (t : String) (pre : List SYSTEM_HANDLE)
        (sh : SYSTEM_HANDLE) (post : List SYSTEM_HANDLE),
      (∀ g ∈ pre, castULONG (qo g.Handle).status = 0) →
      castULONG (qo sh.Handle).status ≠ STATUS_INFO_LENGTH_MISMATCH →
      castULONG (qo sh.Handle).status ≠ 0 →
      filterSystemHandlesByTypeName qo (pre ++ sh :: post) t =
        Except.error (OSError.queryObjectStatus (castULONG (qo sh.Handle).status))) :=
  ⟨filterByTypeName_allOk,
   fun qo t pre sh post hpre hm =>
     (filterByTypeName_firstFail qo t pre sh post hpre).1 hm,
   fun qo t pre sh post hpre hb1 hb2 =>
     (filterByTypeName_firstFail qo t pre sh post hpre).2 hb1 hb2⟩

/-- C6 witness: with the fault-injecting NtQueryObject oracle, the filter
keeps exactly the File-typed record of a two-record all-success input;
a buffer-too-small record aborts it fatally after one clean record; a
record with fatal status 0xc0000008 aborts it with that status. -/
theorem claim6_witness :
    filterSystemHandlesByTypeName faultQueryObject
        [⟨1, 0, 0, 1, 0, 0⟩, ⟨1, 0, 0, 3, 0, 0⟩] "File" =
      Except.ok [⟨1, 0, 0, 1, 0, 0⟩] ∧
    filterSystemHandlesByTypeName faultQueryObject
        ([⟨1, 0, 0, 1, 0, 0⟩] ++ ⟨1, 0, 0, 4, 0, 0⟩ :: []) "File" =
      Except.error OSError.queryObjectBufferTooSmall ∧
    filterSystemHandlesByTypeName faultQueryObject
        ([⟨1, 0, 0, 1, 0, 0⟩] ++ ⟨1, 0, 0, 5, 0, 0⟩ :: []) "File" =
      Except.error (OSError.queryObjectStatus
        (castULONG (faultQueryObject 5).status)) := by
  refine ⟨?_, ?_, ?_⟩
  · have h := claim6_type_filter.1 faultQueryObject "File"
      [⟨1, 0, 0, 1, 0, 0⟩, ⟨1, 0, 0, 3, 0, 0⟩] (by decide)
    rw [h]
    rfl
  · exact claim6_type_filter.2.1 faultQueryObject "File"
      [⟨1, 0, 0, 1, 0, 0⟩] ⟨1, 0, 0, 4, 0, 0⟩ [] (by decide) (by decide)
  · exact claim6_type_filter.2.2 faultQueryObject "File"
      [⟨1, 0, 0, 1, 0, 0⟩] ⟨1, 0, 0, 5, 0, 0⟩ [] (by decide) (by decide) (by decide)

/-- C5: under an OS whose system-information query behaves as documented
(every undersized buffer is answered with STATUS_INFO_LENGTH_MISMATCH and
the required size; every sufficient buffer succeeds with the same
HandleCount n and the same first n records), getSystemHandles yields, for
every initial buffer-size hint, within two iterations, exactly n records -
the number the OS reports as present, regardless of how many slots the
buffer has - and the yielded list is the same one a sufficiently large
initial buffer produces directly. -/
theorem claim5_enumerator_count (nt : Nat → SysInfoResp) (required n : Nat)
    (hsmall : ∀ b, b < required →
      castULONG (nt b).status = STATUS_INFO_LENGTH_MISMATCH ∧
      (nt b).returnLength = required)
    (hbig : ∀ b, required ≤ b →
      castULONG (nt b).status = 0 ∧ (nt b).handleCount = n ∧
      ∀ i, i < n → (nt b).handles i = (nt required).handles i)
    (b0 : Nat) :
    ∃ out, getSystemHandlesLoop nt 2 b0 = some (Except.ok out) ∧
      out.length = n ∧ out = (List.range n).map (nt required).handles := by
  by_cases hb : b0 < required
  · obtain ⟨hst, hrl⟩ := hsmall b0 hb
    rw [getSystemHandlesLoop_mismatch nt 1 b0 hst, hrl]
    obtain ⟨hst2, hc2, _⟩ := hbig required le_rfl
    rw [getSystemHandlesLoop_ok nt 0 required hst2, hc2]
    exact ⟨_, rfl, by simp, rfl⟩
  · have hge : required ≤ b0 := Nat.le_of_not_lt hb
    obtain ⟨hst, hc, hh⟩ := hbig b0 hge
    rw [getSystemHandlesLoop_ok nt 1 b0 hst, hc]
    refine ⟨_, rfl, by simp, ?_⟩
    apply List.map_congr_left
    intro i hi
    exact hh i (List.mem_range.mp hi)

/-- C5 witness: with the concrete well-behaved oracle ntTwoRecords (required
size 3, two records), an initial hint of 1 yields the same two records a
large enough initial buffer yields. -/
theorem claim5_witness :
    ∃ out, getSystemHandlesLoop ntTwoRecords 2 1 = some (Except.ok out) ∧
      out.length = 2 ∧ out = (List.range 2).map (ntTwoRecords 3).handles :=
  claim5_enumerator_count ntTwoRecords 3 2
    (fun b hb => by rw [ntTwoRecords, if_pos hb]; exact ⟨castULONG_mismatch, rfl⟩)
    (fun b hb => by
      rw [ntTwoRecords, if_neg (Nat.not_lt.mpr hb)]
      exact ⟨rfl, rfl, fun i _ => rfl⟩)
    1

/-- C2 counterexample: with an OS that answers every buffer size b with
STATUS_INFO_LENGTH_MISMATCH and reports b itself as the required size, the
retry after the failed call at size 1000 runs at a buffer that is NOT
strictly larger (the loop state after one iteration equals the state it
started from), and no size cap turns the retrying into a fatal error: after
ten iterations the loop is still running. -/
theorem claim2_counterexample :
    castULONG (ntSameSize 1000).status = STATUS_INFO_LENGTH_MISMATCH ∧
    ¬ 1000 < (ntSameSize 1000).returnLength ∧
    getSystemHandlesLoop ntSameSize 2 1000 = getSystemHandlesLoop ntSameSize 1 1000 ∧
    getSystemHandlesLoop ntSameSize 10 1000 = none :=
  ⟨castULONG_mismatch, by decide, rfl, rfl⟩

/-- C2 amended: each retry after a buffer-too-small status uses a buffer of
exactly the size the OS reported as required - which nothing forces to be
larger than the previous buffer - and no size cap exists: against an OS
that reports buffer-too-small at every size, the loop never terminates,
however much fuel it is given. -/
theorem claim2_amended_retry :
    (∀ (nt : Nat → SysInfoResp) (fuel b : Nat),
      castULONG (nt b).status = STATUS_INFO_LENGTH_MISMATCH →
      getSystemHandlesLoop nt (fuel + 1) b =
        getSystemHandlesLoop nt fuel (nt b).returnLength) ∧
    (∀ fuel b, getSystemHandlesLoop ntSameSize fuel b = none) :=
  ⟨getSystemHandlesLoop_mismatch, ntSameSize_never⟩

/-- C2 witness: one concrete retry step of the adversarial oracle, and its
non-termination at fuel 4. -/
theorem claim2_witness :
    getSystemHandlesLoop ntSameSize 1 5 = getSystemHandlesLoop ntSameSize 0 5 ∧
    getSystemHandlesLoop ntSameSize 4 9 = none :=
  ⟨claim2_amended_retry.1 ntSameSize 0 5 castULONG_mismatch,
   claim2_amended_retry.2 4 9⟩

/-- C1: if clearFileHandlesInheritance returns successfully, then every
enumerated handle owned by the calling process whose kernel object type
name is "File" ends with its inheritance flag clear: the
HANDLE_FLAG_INHERIT bit of its flags word is 0, and the flag query
isHandleInheritable on that handle reports false. -/
theorem claim1_clears_all_file_handles
    (os : OS) (fuel : Nat) (r : RunResult) (all : List SYSTEM_HANDLE)
    (henum : getSystemHandlesLoop os.querySystem fuel 1000 = some (Except.ok all))
    (hrun : clearFileHandlesInheritance fuel os = some r)
    (hok : r.err = none)
    (sh : SYSTEM_HANDLE) (hmem : sh ∈ all) (hpid : sh.ProcessId = os.pid)
    (hfile : (os.queryObject sh.Handle).typeName = "File") :
    r.state.flags sh.Handle &&& HANDLE_FLAG_INHERIT = 0 ∧
    isHandleInheritable r.state sh.Handle = Except.ok false := by
  have hval : clearFileHandlesInheritance fuel os =
      some (clearFilesLoop os.queryObject "File"
        (filterSystemHandlesByPID all os.pid) os.state) := by
    unfold clearFileHandlesInheritance
    rw [henum]
  rw [hval] at hrun
  have hr := (Option.some_inj.mp hrun).symm
  subst hr
  have hmem2 : sh ∈ filterSystemHandlesByPID all os.pid := by
    rw [filterByPID_eq_filter]
    exact List.mem_filter.mpr ⟨hmem, by simp [hpid]⟩
  obtain ⟨hflags, hget⟩ := clearFilesLoop_success_clears os.queryObject "File"
    (filterSystemHandlesByPID all os.pid) os.state hok sh hmem2 hfile
  refine ⟨hflags, ?_⟩
  have hget2 : (clearFilesLoop os.queryObject "File"
      (filterSystemHandlesByPID all os.pid) os.state).state.getOk sh.Handle = true := by
    rw [(clearFilesLoop_state_shape os.queryObject "File"
      (filterSystemHandlesByPID all os.pid) os.state).1]
    exact hget
  rw [isHandleInheritable_getOk _ _ hget2]
  simp [hflags]

/-- C1 witness: in the worked five-record example, the successful run leaves
the flags word of handle 6 (File, initially inheritable) with bit 0 clear
and a post-run flag query on it reports false. -/
theorem claim1_witness :
    exampleRun.state.flags 6 &&& HANDLE_FLAG_INHERIT = 0 ∧
    isHandleInheritable exampleRun.state 6 = Except.ok false :=
  claim1_clears_all_file_handles exampleOS 1 exampleRun exampleTable
    rfl rfl rfl ⟨42, 0, 0, 6, 0, 0⟩ (by decide) rfl rfl

/-- C3: error propagation is fail-fast with no rollback. (i) If the clearing
loop fails on a prefix, running it on any extension of that prefix gives the
very same outcome: same error, same final state (handles already cleared
stay cleared), and the same list of issued flag-set calls (none on later
handles). (ii) A non-zero, non-mismatch NtQueryObject status aborts at once
with an error carrying that status and no flag-set call. (iii) A failing
enumeration aborts the top-level operation with an error carrying that
status before any flag-set call. (iv) A failing GetHandleInformation aborts
at once with no flag-set call. (v) A failing SetHandleInformation aborts at
once; the failed call on that handle is the last one issued. -/
theorem claim3_error_propagation :
    (∀ (qo : Nat → ObjResp) (t : String) (l1 l2 : List SYSTEM_HANDLE) (st : OSState),
      (clearFilesLoop qo t l1 st).err ≠ none →
      clearFilesLoop qo t (l1 ++ l2) st = clearFilesLoop qo t l1 st) ∧
    (∀ (qo : Nat → ObjResp) (t : String) (sh : SYSTEM_HANDLE)
        (rest : List SYSTEM_HANDLE) (st : OSState),
      castULONG (qo sh.Handle).status ≠ STATUS_INFO_LENGTH_MISMATCH →
      castULONG (qo sh.Handle).status ≠ 0 →
      clearFilesLoop qo t (sh :: rest) st =
        ⟨some (OSError.queryObjectStatus (castULONG (qo sh.Handle).status)), st, []⟩) ∧
    (∀ (fuel : Nat) (os : OS) (s : Nat),
      getSystemHandlesLoop os.querySystem fuel 1000 = some (Except.error s) →
      clearFileHandlesInheritance fuel os =
        some ⟨some (OSError.querySystemStatus s), os.state, []⟩) ∧
    (∀ (qo : Nat → ObjResp) (t : String) (sh : SYSTEM_HANDLE)
        (rest : List SYSTEM_HANDLE) (st : OSState),
      castULONG (qo sh.Handle).status = 0 → (qo sh.Handle).typeName = t →
      st.getOk sh.Handle = false →
      clearFilesLoop qo t (sh :: rest) st =
        ⟨some OSError.getHandleInformationFailed, st, []⟩) ∧
    (∀ (qo : Nat → ObjResp) (t : String) (sh : SYSTEM_HANDLE)
        (rest : List SYSTEM_HANDLE) (st : OSState),
      castULONG (qo sh.Handle).status = 0 → (qo sh.Handle).typeName = t →
      st.getOk sh.Handle = true →
      st.flags sh.Handle &&& HANDLE_FLAG_INHERIT ≠ 0 →
      st.setOk sh.Handle = false →
      clearFilesLoop qo t (sh :: rest) st =
        ⟨some OSError.setHandleInformationFailed, st,
         [⟨sh.Handle, HANDLE_FLAG_INHERIT, 0⟩]⟩) :=
  ⟨fun qo t l1 l2 st h => clearFilesLoop_append_fail qo t l1 st l2 h,
   clearFilesLoop_badStatus,
   fun fuel os s hsys => by
     unfold clearFileHandlesInheritance
     rw [hsys],
   clearFilesLoop_getFail,
   clearFilesLoop_setFail⟩

/-- C3 witness: a record whose type query reports the fatal status 0xc0000008
aborts the loop with that status, and appending further records to the
failing run changes nothing: no call is issued on them and the state at
failure is kept. -/
theorem claim3_witness :
    clearFilesLoop faultQueryObject "File"
        ([⟨42, 0, 0, 5, 0, 0⟩] ++ [⟨42, 0, 0, 1, 0, 0⟩]) plainState =
      clearFilesLoop faultQueryObject "File" [⟨42, 0, 0, 5, 0, 0⟩] plainState ∧
    clearFilesLoop faultQueryObject "File" [⟨42, 0, 0, 5, 0, 0⟩] plainState =
      ⟨some (OSError.queryObjectStatus (castULONG (faultQueryObject 5).status)),
       plainState, []⟩ :=
  ⟨claim3_error_propagation.1 faultQueryObject "File"
     [⟨42, 0, 0, 5, 0, 0⟩] [⟨42, 0, 0, 1, 0, 0⟩] plainState (by decide),
   claim3_error_propagation.2.1 faultQueryObject "File"
     ⟨42, 0, 0, 5, 0, 0⟩ [] plainState (by decide) (by decide)⟩

/-- C4: the top-level operation is idempotent.  After one successful run,
running it again on the resulting handle-table state (the two query oracles
unchanged) succeeds, changes nothing, and issues zero flag-set calls: every
flag query now observes the inheritance bit already clear. -/
theorem claim4_idempotent (os : OS) (fuel : Nat) (r1 : RunResult)
    (h1 : clearFileHandlesInheritance fuel os = some r1) (hok : r1.err = none) :
    clearFileHandlesInheritance fuel { os with state := r1.state } =
      some ⟨none, r1.state, []⟩ := by
  rcases hsys : getSystemHandlesLoop os.querySystem fuel 1000 with _ | res
  · unfold clearFileHandlesInheritance at h1
    rw [hsys] at h1
    exact absurd h1 (by simp)
  rcases res with s | all
  · unfold clearFileHandlesInheritance at h1
    rw [hsys] at h1
    rw [← Option.some_inj.mp h1] at hok
    exact absurd hok (by simp)
  · unfold clearFileHandlesInheritance at h1
    rw [hsys] at h1
    have hr1 : clearFilesLoop os.queryObject "File"
        (filterSystemHandlesByPID all os.pid) os.state = r1 :=
      Option.some_inj.mp h1
    rw [← hr1] at hok
    unfold clearFileHandlesInheritance
    have hq : ({ os with state := r1.state } : OS).querySystem = os.querySystem := rfl
    rw [hq, hsys]
    have hqo : ({ os with state := r1.state } : OS).queryObject = os.queryObject := rfl
    have hpid : ({ os with state := r1.state } : OS).pid = os.pid := rfl
    have hst : ({ os with state := r1.state } : OS).state = r1.state := rfl
    rw [hqo, hpid, hst, ← hr1]
    exact congrArg some (clearFilesLoop_idem os.queryObject "File"
      (filterSystemHandlesByPID all os.pid) os.state hok)

/-- C4 witness: running the worked example a second time from the state the
first successful run produced succeeds with zero flag-set calls and leaves
the state untouched. -/
theorem claim4_witness :
    clearFileHandlesInheritance 1 { exampleOS with state := exampleRun.state } =
      some ⟨none, exampleRun.state, []⟩ :=
  claim4_idempotent exampleOS 1 exampleRun rfl rfl

/-- C8: on a successful run over enumerated records with pairwise distinct
handle values, the issued flag-set calls are exactly one call
(handle, HANDLE_FLAG_INHERIT, 0) per enumerated record that is owned by the
current process, has object type name "File", and has the inheritance bit
set in the starting state, in enumeration order.  In particular, in the
worked five-record example (two records of the current process: one File
with the bit set, one File with it clear; three records of other
processes), exactly one call is issued and it targets handle 6. -/
theorem claim8_exact_set_calls :
    (∀ (fuel : Nat) (os : OS) (all : List SYSTEM_HANDLE) (r : RunResult),
      getSystemHandlesLoop os.querySystem fuel 1000 = some (Except.ok all) →
      clearFileHandlesInheritance fuel os = some r →
      r.err = none →
      ((filterSystemHandlesByPID all os.pid).map SYSTEM_HANDLE.Handle).Nodup →
      r.calls =
        ((filterSystemHandlesByPID all os.pid).filter fun sh =>
            ((os.queryObject sh.Handle).typeName == "File") &&
              (os.state.flags sh.Handle &&& HANDLE_FLAG_INHERIT != 0)).map
          (fun sh => ⟨sh.Handle, HANDLE_FLAG_INHERIT, 0⟩)) ∧
    (clearFileHandlesInheritance 1 exampleOS = some exampleRun ∧
      exampleRun.err = none ∧
      exampleRun.calls = [⟨6, HANDLE_FLAG_INHERIT, 0⟩]) := by
  constructor
  · intro fuel os all r henum hrun hok hnd
    have hval : clearFileHandlesInheritance fuel os =
        some (clearFilesLoop os.queryObject "File"
          (filterSystemHandlesByPID all os.pid) os.state) := by
      unfold clearFileHandlesInheritance
      rw [henum]
    rw [hval] at hrun
    have hr := (Option.some_inj.mp hrun).symm
    subst hr
    exact clearFilesLoop_calls os.queryObject "File"
      (filterSystemHandlesByPID all os.pid) os.state hok hnd
  · exact ⟨rfl, rfl, rfl⟩

/-- C8 witness: the general characterization applied to the worked
five-record example. -/
theorem claim8_witness :
    exampleRun.calls =
      ((filterSystemHandlesByPID exampleTable 42).filter fun sh =>
          ((exampleQueryObject sh.Handle).typeName == "File") &&
            (exampleState.flags sh.Handle &&& HANDLE_FLAG_INHERIT != 0)).map
        (fun sh => ⟨sh.Handle, HANDLE_FLAG_INHERIT, 0⟩) :=
  claim8_exact_set_calls.1 1 exampleOS exampleTable exampleRun
    rfl rfl rfl (by decide)

/-- C9: when SetHandleInformation succeeds, the clearing step changes the
flags word of the handle by the mask HANDLE_FLAG_INHERIT with new value 0
only: bit 0 of the result is clear, every other bit of that word is
unchanged, the word of every other handle is unchanged, and the switches are
untouched; when the OS reports failure, the step fails fatally with
setHandleInformationFailed. -/
theorem claim9_clear_mask (st : OSState) (x : Nat) :
    (st.setOk x = true →
      ∃ st2, clearHandleInheritance st x = Except.ok st2 ∧
        st2.flags x &&& HANDLE_FLAG_INHERIT = 0 ∧
        (∀ i, i ≠ 0 → (st2.flags x).testBit i = (st.flags x).testBit i) ∧
        (∀ y, y ≠ x → st2.flags y = st.flags y) ∧
        st2.getOk = st.getOk ∧ st2.setOk = st.setOk) ∧
    (st.setOk x = false →
      clearHandleInheritance st x = Except.error OSError.setHandleInformationFailed) := by
  constructor
  · intro h
    refine ⟨setState st x HANDLE_FLAG_INHERIT 0,
      clearHandleInheritance_setOk st x h, ?_, ?_, ?_, rfl, rfl⟩
    · rw [setState_flags_self]
      exact clearWord_and_one _
    · intro i hi
      rw [setState_flags_self]
      exact clearWord_testBit_ne _ i hi
    · intro y hy
      exact setState_flags_other st x _ _ y hy
  · exact clearHandleInheritance_setFail st x

/-- C9 witness: clearing handle 2 of plainState (flags word 3) succeeds and
touches only bit 0; on setFailState the step fails fatally. -/
theorem claim9_witness :
    (∃ st2, clearHandleInheritance plainState 2 = Except.ok st2 ∧
      st2.flags 2 &&& HANDLE_FLAG_INHERIT = 0 ∧
      (∀ i, i ≠ 0 → (st2.flags 2).testBit i = (plainState.flags 2).testBit i) ∧
      (∀ y, y ≠ 2 → st2.flags y = plainState.flags y) ∧
      st2.getOk = plainState.getOk ∧ st2.setOk = plainState.setOk) ∧
    clearHandleInheritance setFailState 2 =
      Except.error OSError.setHandleInformationFailed :=
  ⟨(claim9_clear_mask plainState 2).1 rfl, (claim9_clear_mask setFailState 2).2 rfl⟩

/-- C10: the standalone clearHandleInheritance issues the flag-set call
unconditionally - it performs no flag query first.  Observably: (i) even on
a handle whose inheritance bit is already clear, a failing
SetHandleInformation makes it raise; (ii) whenever SetHandleInformation
succeeds it returns the set-updated state, with no reference to the flag
query or its success switch; (iii) the query-first guard exists only in the
top-level orchestration: when the flag query reports the bit clear, the
loop skips the record without issuing any flag-set call - even in a state
whose SetHandleInformation would fail. -/
theorem claim10_unconditional_set :
    (∀ (st : OSState) (x : Nat),
      st.flags x &&& HANDLE_FLAG_INHERIT = 0 → st.setOk x = false →
      clearHandleInheritance st x = Except.error OSError.setHandleInformationFailed) ∧
    (∀ (st : OSState) (x : Nat), st.setOk x = true →
      clearHandleInheritance st x = Except.ok (setState st x HANDLE_FLAG_INHERIT 0)) ∧
    (∀ (qo : Nat → ObjResp) (t : String) (sh : SYSTEM_HANDLE)
        (rest : List SYSTEM_HANDLE) (st : OSState),
      castULONG (qo sh.Handle).status = 0 → (qo sh.Handle).typeName = t →
      st.getOk sh.Handle = true →
      st.flags sh.Handle &&& HANDLE_FLAG_INHERIT = 0 →
      clearFilesLoop qo t (sh :: rest) st = clearFilesLoop qo t rest st) :=
  ⟨fun st x _ h => clearHandleInheritance_setFail st x h,
   fun st x h => clearHandleInheritance_setOk st x h,
   clearFilesLoop_notInheritable⟩

/-- C10 witness: on setFailState, handle 1 has the bit clear, yet the
standalone step raises (the call was issued); the orchestrating loop on the
same state skips the record entirely, issuing nothing. -/
theorem claim10_witness :
    clearHandleInheritance setFailState 1 =
      Except.error OSError.setHandleInformationFailed ∧
    clearFilesLoop faultQueryObject "File" [⟨42, 0, 0, 1, 0, 0⟩] setFailState =
      clearFilesLoop faultQueryObject "File" [] setFailState :=
  ⟨claim10_unconditional_set.1 setFailState 1 (by decide) rfl,
   claim10_unconditional_set.2.2 faultQueryObject "File"
     ⟨42, 0, 0, 1, 0, 0⟩ [] setFailState (by decide) rfl rfl (by decide)⟩

end Win32HandleInherit
